import Mathlib

/-!
# Verification of the JunctionRelay HTTP test fixtures

Shallow embedding of the two Python programs of this repository:

* `src/TestClient/TestClient5000.py` — the *Receiver*: a Flask endpoint
  `POST /data` that parses a JSON body, logs each element and answers
  `200 {"status": "success"}` or `400 {"status": "no data received"}`.
* `src/TestServer/TestServer5003.py` — the *Emulator*: a background loop
  mutating a 3-element in-memory sensor list every 5 seconds, and a Flask
  endpoint `GET /data.json` serving it as JSON.

Modelling conventions:

* JSON values are the inductive `Json`; Python `None` is `Json.null`, and the
  parsed request body delivered by Flask's `request.json` is modelled as a
  `Json` value where an absent or unparsable body yields `Json.null`
  (a falsy value, exactly how the handler's `if data:` treats it).
* Python exceptions (`TypeError` from iterating a non-iterable,
  `AttributeError` from `.get` on a non-dict) are modelled with `Except PyErr`.
* Python `float` arithmetic is modelled with exact rationals `ℚ`: every value
  the Emulator ever stores is an exact multiple of 1/10, and in that range
  parse / add 0.1 / format-to-one-decimal behaves identically for IEEE
  doubles and for exact rationals.
* JSON numbers are modelled with integer payloads; no claim under
  verification depends on fractional JSON number literals.
-/

/-- A JSON value as produced by Python's `json` decoding: `null`, booleans,
numbers, strings, arrays, and objects (ordered key/value lists, as a model
of a Python `dict`). -/
inductive Json where
  | null : Json
  | bool (b : Bool) : Json
  | num (n : Int) : Json
  | str (s : String) : Json
  | arr (elems : List Json) : Json
  | obj (fields : List (String × Json)) : Json

/-- Python truthiness of a decoded JSON value: `None`, `False`, `0`, `""`,
`[]` and an empty dict are falsy; everything else is truthy.  This is what the
Receiver's `if data:` tests. -/
def Json.truthy : Json → Bool
  | .null => false
  | .bool b => b
  | .num n => n != 0
  | .str s => !s.isEmpty
  | .arr elems => !elems.isEmpty
  | .obj fields => !fields.isEmpty

mutual

/-- Python `str()` of a decoded JSON value, as used by the Receiver's
f-string: strings print verbatim, `None` prints `None`, booleans print
`True`/`False`, numbers print their decimal representation, and containers
print their elements with `repr`-style quoting of strings. -/
def pyStr : Json → String
  | .null => "None"
  | .bool true => "True"
  | .bool false => "False"
  | .num n => toString n
  | .str s => s
  | .arr elems => "[" ++ pyStrList elems ++ "]"
  | .obj fields => "\x7b" ++ pyStrFields fields ++ "\x7d"

/-- Comma-separated rendering of a JSON array's elements. -/
def pyStrList : List Json → String
  | [] => ""
  | [x] => pyRepr x
  | x :: xs => pyRepr x ++ ", " ++ pyStrList xs

/-- Comma-separated rendering of a JSON object's fields. -/
def pyStrFields : List (String × Json) → String
  | [] => ""
  | [kv] => "'" ++ kv.1 ++ "': " ++ pyRepr kv.2
  | kv :: kvs => "'" ++ kv.1 ++ "': " ++ pyRepr kv.2 ++ ", " ++ pyStrFields kvs

/-- Python `repr()` of a decoded JSON value (used for elements nested inside
containers): like `pyStr` but quoting strings. -/
def pyRepr : Json → String
  | .str s => "'" ++ s ++ "'"
  | .null => "None"
  | .bool true => "True"
  | .bool false => "False"
  | .num n => toString n
  | .arr elems => "[" ++ pyStrList elems ++ "]"
  | .obj fields => "\x7b" ++ pyStrFields fields ++ "\x7d"

end

/-- The Python runtime errors the Receiver's handler can raise:
`TypeError` from `for sensor in data` when `data` is not iterable, and
`AttributeError` from `sensor.get` when an element is not a dict. -/
inductive PyErr where
  | typeError (msg : String) : PyErr
  | attributeError (msg : String) : PyErr
deriving DecidableEq

/-- Python `dict.get(key, default)` on the ordered field list of a JSON
object: the last binding of the key wins (as after `json.loads`, where later
duplicate keys overwrite earlier ones), and the default is returned when the
key is absent. -/
def dictGet (fields : List (String × Json)) (key : String) (dflt : Json) : Json :=
  match (fields.filter (fun kv => kv.1 == key)).getLast? with
  | some kv => kv.2
  | none => dflt

/-- Python `dict` lookup without a default, for stating what a rendered field
shows: `none` when the key is absent. -/
def dictGet? (fields : List (String × Json)) (key : String) : Option Json :=
  ((fields.filter (fun kv => kv.1 == key)).getLast?).map (fun kv => kv.2)

/-- Python iteration `for sensor in data` over a decoded JSON value:
lists yield their elements, dicts their keys, strings their characters;
numbers, booleans and `None` raise `TypeError`. -/
def pyIter : Json → Except PyErr (List Json)
  | .arr elems => .ok elems
  | .obj fields => .ok (fields.map (fun kv => Json.str kv.1))
  | .str s => .ok (s.toList.map (fun c => Json.str (String.mk [c])))
  | .num _ => .error (.typeError "int object is not iterable")
  | .bool _ => .error (.typeError "bool object is not iterable")
  | .null => .error (.typeError "NoneType object is not iterable")

/-- The body of the Receiver's per-element loop
(`TestClient5000.py` lines 13-17): four `sensor.get(..., "N/A")` lookups and
one printed line.  A non-dict element raises `AttributeError` at the first
`.get`. -/
def sensorLine : Json → Except PyErr String
  | .obj fields =>
      .ok ("Sensor ID: " ++ pyStr (dictGet fields "ExternalId" (Json.str "N/A"))
        ++ ", Sensor Name: " ++ pyStr (dictGet fields "Name" (Json.str "N/A"))
        ++ ", Sensor Tag: " ++ pyStr (dictGet fields "SensorTag" (Json.str "N/A"))
        ++ ", Value: " ++ pyStr (dictGet fields "Value" (Json.str "N/A")))
  | .null => .error (.attributeError "NoneType object has no attribute get")
  | .bool _ => .error (.attributeError "bool object has no attribute get")
  | .num _ => .error (.attributeError "int object has no attribute get")
  | .str _ => .error (.attributeError "str object has no attribute get")
  | .arr _ => .error (.attributeError "list object has no attribute get")

/-- The Receiver's loop over all elements: the first failing element aborts
the handler with its exception. -/
def sensorLines : List Json → Except PyErr (List String)
  | [] => .ok []
  | x :: xs => do
      let line ← sensorLine x
      let rest ← sensorLines xs
      .ok (line :: rest)

/-- An HTTP response as produced by Flask's `jsonify(...), code`. -/
structure HttpResponse where
  body : Json
  status : Nat

/-- `jsonify({"status": "success"}), 200`. -/
def successResponse : HttpResponse :=
  ⟨Json.obj [("status", Json.str "success")], 200⟩

/-- `jsonify({"status": "no data received"}), 400`. -/
def noDataResponse : HttpResponse :=
  ⟨Json.obj [("status", Json.str "no data received")], 400⟩

/-- The Receiver's handler `receive_data` (`TestClient5000.py` lines 7-19).
`data` is the decoded request body (`Json.null` when the body is absent or
not well-formed JSON, matching Flask's `request.json` as described by the
spec); `timestamp` is `datetime.now().strftime('%Y-%m-%d %H:%M:%S')`,
passed in as a parameter since it is read from the clock.  The result is
either a raised Python error, or the list of printed lines together with
the HTTP response. -/
def receive_data (data : Json) (timestamp : String) :
    Except PyErr (List String × HttpResponse) :=
  if data.truthy then do
    let elems ← pyIter data
    let lines ← sensorLines elems
    .ok (("Received data at " ++ timestamp ++ ":") :: lines, successResponse)
  else
    .ok ([], noDataResponse)

/-- The HTTP response of a handler run, when it did not raise. -/
def responseOf : Except PyErr (List String × HttpResponse) → Option HttpResponse
  | .ok pair => some pair.2
  | .error _ => none

/-- The printed lines of a handler run, when it did not raise. -/
def printedLines : Except PyErr (List String × HttpResponse) → Option (List String)
  | .ok pair => some pair.1
  | .error _ => none

/-- Whether a decoded JSON value is a mapping. -/
def isMapping : Json → Bool
  | .obj _ => true
  | _ => false

/-- A request body conforming to the Receiver's external interface:
a JSON array of objects (or the degenerate absent/`null` body). -/
def validPayload : Json → Bool
  | .arr elems => elems.all isMapping
  | .null => true
  | _ => false

/-! ## Emulator: decimal strings, `float()` and `"{:.1f}".format` -/

/-- The ASCII digit character for `d < 10`. -/
def digitChar (d : Nat) : Char := Char.ofNat (48 + d)

/-- Fuel-driven standard decimal rendering of a natural number
(most significant digit first); the fuel is always sufficient when it
exceeds the number. -/
def natDigitsAux : Nat → Nat → List Char
  | 0, _ => []
  | fuel + 1, n =>
      if n < 10 then [digitChar n]
      else natDigitsAux fuel (n / 10) ++ [digitChar (n % 10)]

/-- The standard decimal digit string of a natural number. -/
def natDigits (n : Nat) : List Char := natDigitsAux (n + 1) n

/-- Decimal rendering of a natural number as a `String`. -/
def natToString (n : Nat) : String := String.mk (natDigits n)

/-- The numeric value of a digit string (not validating). -/
def digitsVal (cs : List Char) : Nat :=
  cs.foldl (fun a c => a * 10 + (c.toNat - 48)) 0

/-- Split a character list at its first `'.'`, if any: the part before it,
and (when a dot occurs) the raw remainder after it. -/
def splitAtDot : List Char → List Char × Option (List Char)
  | [] => ([], none)
  | c :: cs =>
      if c = '.' then ([], some cs)
      else
        let rest := splitAtDot cs
        (c :: rest.1, rest.2)

/-- Parse an unsigned decimal literal, the subset of Python `float()` syntax
the Emulator ever stores: digits, optionally with a fractional part
(`"88"`, `"88.1"`, `"88."`, `".1"`; exponents, `inf`/`nan`, underscores and
surrounding whitespace, which never occur here, are not modelled). -/
def parseUnsigned (cs : List Char) : Option ℚ :=
  match splitAtDot cs with
  | (intPart, none) =>
      if !intPart.isEmpty && intPart.all Char.isDigit then
        some (digitsVal intPart : ℚ)
      else none
  | (intPart, some fracPart) =>
      if (!intPart.isEmpty || !fracPart.isEmpty)
          && intPart.all Char.isDigit && fracPart.all Char.isDigit then
        some ((digitsVal intPart : ℚ)
          + (digitsVal fracPart : ℚ) / (10 : ℚ) ^ fracPart.length)
      else none

/-- Python `float(s)` on the decimal-literal strings the Emulator handles,
as an exact rational; `none` models a raised `ValueError`. -/
def parseDecimal? (s : String) : Option ℚ :=
  match s.toList with
  | [] => none
  | c :: cs =>
      if c = '-' then (parseUnsigned cs).map Neg.neg
      else if c = '+' then parseUnsigned cs
      else parseUnsigned (c :: cs)

/-- Round a rational to the nearest integer, ties to the even neighbour —
the rounding Python's `"{:.1f}"` formatting performs (on the exact tenths
the Emulator stores, the tie case never arises). -/
def roundHalfEven (q : ℚ) : ℤ :=
  let f : ℤ := q.num.fdiv (q.den : ℤ)
  let frac : ℚ := q - (f : ℚ)
  if frac < 1 / 2 then f
  else if 1 / 2 < frac then f + 1
  else if f % 2 = 0 then f else f + 1

/-- Python `"{:.1f}".format(q)`: round to one decimal place and print with
exactly one fractional digit. -/
def formatOneDec (q : ℚ) : String :=
  let n : ℤ := roundHalfEven (q * 10)
  let a : Nat := n.natAbs
  (if n < 0 then "-" else "") ++ natToString (a / 10) ++ "." ++ natToString (a % 10)

/-- The canonical one-fractional-digit string of `k` tenths:
`tenthsStr 881 = "88.1"`. -/
def tenthsStr (k : Nat) : String :=
  natToString (k / 10) ++ "." ++ natToString (k % 10)

/-- Does `s` look like a decimal number with exactly one fractional digit
(digits, a dot, then a single digit)? -/
def oneDecFormat (s : String) : Bool :=
  match splitAtDot s.toList with
  | (intPart, some fracPart) =>
      !intPart.isEmpty && intPart.all Char.isDigit
        && fracPart.length == 1 && fracPart.all Char.isDigit
  | (_, none) => false

/-! ## Emulator: sensor state and operations -/

/-- One fake sensor of `TestServer5003.py` (a dict with four string fields;
the `Type` key is called `Type'` here because `Type` is reserved in Lean). -/
structure FakeSensor where
  Text : String
  Type' : String
  Value : String
  SensorId : String
deriving DecidableEq

/-- The initial `sensors_data` list (`TestServer5003.py` lines 12-31). -/
def sensors_data : List FakeSensor :=
  [⟨"Fake Sensor 1", "Temperature", "88.0", "fake_sensor_1"⟩,
   ⟨"Fake Sensor 2", "Humidity", "20.0", "fake_sensor_2"⟩,
   ⟨"Fake Sensor 3", "Pressure", "11.0", "fake_sensor_3"⟩]

/-- One sensor's update step:
`sensors_data[i]["Value"] = "{:.1f}".format(float(sensors_data[i]["Value"]) + 0.1)`.
`none` models `float()` raising `ValueError`, which would halt the loop. -/
def updateSensor (s : FakeSensor) : Option FakeSensor :=
  (parseDecimal? s.Value).map
    (fun q => { s with Value := formatOneDec (q + 1 / 10) })

/-- One pass of the body of `update_fake_sensors`
(`TestServer5003.py` lines 36-38): the three indexed assignments.  The
source indexes elements 0, 1 and 2 of the global list, which always has
exactly three elements; a shorter list would raise `IndexError`, also
modelled as `none`. -/
def updateFakeSensorsOnce : List FakeSensor → Option (List FakeSensor)
  | [s0, s1, s2] => do
      let t0 ← updateSensor s0
      let t1 ← updateSensor s1
      let t2 ← updateSensor s2
      some [t0, t1, t2]
  | _ => none

/-- The sensor list after the background loop's first `n` passes.  The loop
runs its first pass immediately when the thread starts (before its first
`time.sleep`), so the state the HTTP server exposes during the first
5-second window is `stateAfter 1`, and during the `n`-th window
`stateAfter n`.  `none` means the loop has crashed. -/
def stateAfter : Nat → Option (List FakeSensor)
  | 0 => some sensors_data
  | n + 1 => (stateAfter n).bind updateFakeSensorsOnce

/-- `jsonify` of one sensor dict, key order as in the source literal. -/
def sensorToJson (s : FakeSensor) : Json :=
  Json.obj [("Text", Json.str s.Text), ("Type", Json.str s.Type'),
    ("Value", Json.str s.Value), ("SensorId", Json.str s.SensorId)]

/-- The Emulator's `GET /data.json` handler (`TestServer5003.py` lines
41-43): `jsonify(sensors_data)`.  It reads the shared list and returns it as
a JSON array; the returned state is the state after the handler, which the
handler does not modify. -/
def data_json (state : List FakeSensor) : Json × List FakeSensor :=
  (Json.arr (state.map sensorToJson), state)

/-! ## Decimal round-trip lemmas -/

/-- Appending one character multiplies the accumulated value by 10. -/
lemma digitsVal_append_single (cs : List Char) (c : Char) :
    digitsVal (cs ++ [c]) = digitsVal cs * 10 + (c.toNat - 48) := by
  simp [digitsVal, List.foldl_append]

/-- The numeric value of the digit character of `d < 10`. -/
lemma digitChar_toNat {d : Nat} (h : d < 10) : (digitChar d).toNat = 48 + d := by
  interval_cases d <;> decide

/-- The digit character of `d < 10` is a digit. -/
lemma digitChar_isDigit {d : Nat} (h : d < 10) : (digitChar d).isDigit = true := by
  interval_cases d <;> decide

/-- A digit character is not `'.'`. -/
lemma isDigit_ne_dot {c : Char} (h : c.isDigit = true) : c ≠ '.' := by
  intro he
  subst he
  exact absurd h (by decide)

/-- A digit character is not `'-'`. -/
lemma isDigit_ne_minus {c : Char} (h : c.isDigit = true) : c ≠ '-' := by
  intro he
  subst he
  exact absurd h (by decide)

/-- A digit character is not `'+'`. -/
lemma isDigit_ne_plus {c : Char} (h : c.isDigit = true) : c ≠ '+' := by
  intro he
  subst he
  exact absurd h (by decide)

/-- With sufficient fuel, `natDigitsAux` produces a non-empty all-digit
string whose value is the input. -/
lemma natDigitsAux_spec :
    ∀ fuel n, n < fuel →
      natDigitsAux fuel n ≠ [] ∧
      (∀ c ∈ natDigitsAux fuel n, c.isDigit = true) ∧
      digitsVal (natDigitsAux fuel n) = n := by
  intro fuel
  induction fuel with
  | zero => intro n h; exact absurd h (Nat.not_lt_zero n)
  | succ fuel ih =>
      intro n h
      by_cases h10 : n < 10
      · refine ⟨by simp [natDigitsAux, h10], ?_, ?_⟩
        · intro c hc
          simp [natDigitsAux, h10] at hc
          subst hc
          exact digitChar_isDigit h10
        · simp [natDigitsAux, h10, digitsVal, digitChar_toNat h10]
      · have heq : natDigitsAux (fuel + 1) n
            = natDigitsAux fuel (n / 10) ++ [digitChar (n % 10)] := by
          simp [natDigitsAux, h10]
        have hlt : n / 10 < fuel := by
          have := Nat.div_lt_self (by omega : 0 < n) (by omega : 1 < 10)
          omega
        obtain ⟨hne, hdig, hval⟩ := ih (n / 10) hlt
        refine ⟨by simp [heq], ?_, ?_⟩
        · intro c hc
          rw [heq] at hc
          rcases List.mem_append.mp hc with hmem | hmem
          · exact hdig c hmem
          · simp at hmem
            subst hmem
            exact digitChar_isDigit (Nat.mod_lt n (by omega))
        · rw [heq, digitsVal_append_single, hval,
            digitChar_toNat (Nat.mod_lt n (by omega))]
          omega

/-- `natDigits n` is never empty. -/
lemma natDigits_ne_nil (n : Nat) : natDigits n ≠ [] :=
  (natDigitsAux_spec (n + 1) n (Nat.lt_succ_self n)).1

/-- Every character of `natDigits n` is a digit. -/
lemma natDigits_all_digits (n : Nat) : ∀ c ∈ natDigits n, c.isDigit = true :=
  (natDigitsAux_spec (n + 1) n (Nat.lt_succ_self n)).2.1

/-- Reading `natDigits n` back gives `n`. -/
lemma digitsVal_natDigits (n : Nat) : digitsVal (natDigits n) = n :=
  (natDigitsAux_spec (n + 1) n (Nat.lt_succ_self n)).2.2

/-- `splitAtDot` on a dot-free prefix followed by a dot splits there. -/
lemma splitAtDot_append_dot (xs ys : List Char) (h : ∀ c ∈ xs, c ≠ '.') :
    splitAtDot (xs ++ '.' :: ys) = (xs, some ys) := by
  induction xs with
  | nil => simp [splitAtDot]
  | cons c cs ih =>
      have hc : ¬(c = '.') := h c (by simp)
      have ih' := ih (fun d hd => h d (by simp [hd]))
      simp only [List.cons_append, splitAtDot, if_neg hc]
      rw [show cs.append ('.' :: ys) = cs ++ '.' :: ys from rfl, ih']

/-- The character list of `tenthsStr k`. -/
lemma tenthsStr_toList (k : Nat) :
    (tenthsStr k).toList = natDigits (k / 10) ++ '.' :: natDigits (k % 10) := by
  simp [tenthsStr, natToString, String.toList, String.data_append]

/-- `parseUnsigned` on an all-digit integer part, a dot and an all-digit
fractional part returns the represented rational. -/
lemma parseUnsigned_digits_frac (xs ys : List Char)
    (hxne : xs ≠ []) (hx : ∀ c ∈ xs, c.isDigit = true)
    (hy : ∀ c ∈ ys, c.isDigit = true) :
    parseUnsigned (xs ++ '.' :: ys) =
      some ((digitsVal xs : ℚ) + (digitsVal ys : ℚ) / (10 : ℚ) ^ ys.length) := by
  have hsplit := splitAtDot_append_dot xs ys (fun c hc => isDigit_ne_dot (hx c hc))
  have h1 : xs.isEmpty = false := by
    cases xs with
    | nil => exact absurd rfl hxne
    | cons a as => rfl
  have h2 : xs.all Char.isDigit = true := List.all_eq_true.mpr hx
  have h3 : ys.all Char.isDigit = true := List.all_eq_true.mpr hy
  simp [parseUnsigned, hsplit, h1, h2, h3]

/-- Parsing the canonical tenths string recovers the exact rational value. -/
lemma parseDecimal_tenths (k : Nat) :
    parseDecimal? (tenthsStr k) = some ((k : ℚ) / 10) := by
  obtain ⟨c, cs, hcons⟩ : ∃ c cs, natDigits (k / 10) = c :: cs := by
    cases h : natDigits (k / 10) with
    | nil => exact absurd h (natDigits_ne_nil _)
    | cons c cs => exact ⟨c, cs, rfl⟩
  have hcd : c.isDigit = true := natDigits_all_digits _ c (by rw [hcons]; simp)
  have hminus : ¬(c = '-') := isDigit_ne_minus hcd
  have hplus : ¬(c = '+') := isDigit_ne_plus hcd
  have hlist : (tenthsStr k).toList = c :: (cs ++ '.' :: natDigits (k % 10)) := by
    rw [tenthsStr_toList, hcons]
    simp
  have hre : c :: (cs ++ '.' :: natDigits (k % 10))
      = natDigits (k / 10) ++ '.' :: natDigits (k % 10) := by
    rw [hcons]
    rfl
  unfold parseDecimal?
  rw [hlist]
  simp only [if_neg hminus, if_neg hplus]
  rw [hre, parseUnsigned_digits_frac _ _ (natDigits_ne_nil _)
    (natDigits_all_digits _) (natDigits_all_digits _)]
  have hlen : (natDigits (k % 10)).length = 1 := by
    have hm : k % 10 < 10 := Nat.mod_lt k (by omega)
    simp [natDigits, natDigitsAux, hm]
  rw [digitsVal_natDigits, digitsVal_natDigits, hlen]
  have hk : (10 : ℚ) * ((k / 10 : ℕ) : ℚ) + ((k % 10 : ℕ) : ℚ) = (k : ℚ) := by
    exact_mod_cast congrArg (fun n : ℕ => (n : ℚ)) (Nat.div_add_mod k 10)
  rw [pow_one]
  congr 1
  linear_combination hk / 10

/-- Half-even rounding of an integer is that integer. -/
lemma roundHalfEven_intCast (m : ℤ) : roundHalfEven ((m : ℚ)) = m := by
  have h1 : ((m : ℚ)).num.fdiv (((m : ℚ)).den : ℤ) = m := by
    rw [Rat.num_intCast, Rat.den_intCast]
    simp [Int.fdiv_one]
  unfold roundHalfEven
  rw [h1]
  norm_num

/-- Formatting `k/10` with one decimal digit yields `tenthsStr k`. -/
lemma formatOneDec_tenths (k : Nat) : formatOneDec ((k : ℚ) / 10) = tenthsStr k := by
  unfold formatOneDec
  have h1 : ((k : ℚ) / 10) * 10 = (((k : ℤ) : ℚ)) := by
    rw [div_mul_cancel₀ _ (by norm_num : (10 : ℚ) ≠ 0)]
    push_cast
    ring
  rw [h1, roundHalfEven_intCast]
  have h2 : ¬((k : ℤ) < 0) := not_lt.mpr (Int.natCast_nonneg k)
  simp only [if_neg h2, Int.natAbs_ofNat]
  rfl

/-- One update step on a sensor whose `Value` holds `k` tenths: the
stored string becomes `k + 1` tenths, all other fields untouched. -/
lemma updateSensor_tenths (s : FakeSensor) (k : Nat) (h : s.Value = tenthsStr k) :
    updateSensor s = some { s with Value := tenthsStr (k + 1) } := by
  unfold updateSensor
  rw [h, parseDecimal_tenths]
  have hq : (k : ℚ) / 10 + 1 / 10 = ((k + 1 : ℕ) : ℚ) / 10 := by
    push_cast
    ring
  simp only [Option.map_some']
  rw [hq, formatOneDec_tenths]

/-- Closed form of the Emulator's state: after `n` passes of the background
loop, the three sensors hold `880 + n`, `200 + n` and `110 + n` tenths, and
every other field still has its initial value. -/
lemma stateAfter_eq (n : Nat) :
    stateAfter n = some
      [⟨"Fake Sensor 1", "Temperature", tenthsStr (880 + n), "fake_sensor_1"⟩,
       ⟨"Fake Sensor 2", "Humidity", tenthsStr (200 + n), "fake_sensor_2"⟩,
       ⟨"Fake Sensor 3", "Pressure", tenthsStr (110 + n), "fake_sensor_3"⟩] := by
  induction n with
  | zero =>
      have h1 : tenthsStr 880 = "88.0" := rfl
      have h2 : tenthsStr 200 = "20.0" := rfl
      have h3 : tenthsStr 110 = "11.0" := rfl
      simp [stateAfter, sensors_data, h1, h2, h3]
  | succ n ih =>
      have e0 := updateSensor_tenths
        ⟨"Fake Sensor 1", "Temperature", tenthsStr (880 + n), "fake_sensor_1"⟩
        (880 + n) rfl
      have e1 := updateSensor_tenths
        ⟨"Fake Sensor 2", "Humidity", tenthsStr (200 + n), "fake_sensor_2"⟩
        (200 + n) rfl
      have e2 := updateSensor_tenths
        ⟨"Fake Sensor 3", "Pressure", tenthsStr (110 + n), "fake_sensor_3"⟩
        (110 + n) rfl
      rw [show stateAfter (n + 1) = (stateAfter n).bind updateFakeSensorsOnce from rfl,
        ih]
      simp [updateFakeSensorsOnce, e0, e1, e2]
      exact ⟨congrArg tenthsStr (Nat.add_assoc 880 n 1),
        congrArg tenthsStr (Nat.add_assoc 200 n 1),
        congrArg tenthsStr (Nat.add_assoc 110 n 1)⟩

/-- The canonical tenths string has exactly one fractional digit. -/
lemma oneDecFormat_tenthsStr (k : Nat) : oneDecFormat (tenthsStr k) = true := by
  unfold oneDecFormat
  rw [tenthsStr_toList]
  have hsplit := splitAtDot_append_dot (natDigits (k / 10)) (natDigits (k % 10))
    (fun c hc => isDigit_ne_dot (natDigits_all_digits _ c hc))
  rw [hsplit]
  have h1 : (natDigits (k / 10)).isEmpty = false := by
    cases h : natDigits (k / 10) with
    | nil => exact absurd h (natDigits_ne_nil _)
    | cons a as => rfl
  have hm : k % 10 < 10 := Nat.mod_lt k (by omega)
  have hlen : (natDigits (k % 10)).length = 1 := by
    simp [natDigits, natDigitsAux, hm]
  simp [h1, hlen, List.all_eq_true.mpr (natDigits_all_digits (k / 10)),
    List.all_eq_true.mpr (natDigits_all_digits (k % 10))]

/-! ## Receiver helper lemmas -/

/-- What the spec says a rendered field shows: the field's value when the
key is present, the sentinel `"N/A"` when it is missing. -/
def renderedField (fields : List (String × Json)) (key : String) : String :=
  match dictGet? fields key with
  | some v => pyStr v
  | none => "N/A"

/-- The log line predicted for one mapping element: its `ExternalId`,
`Name`, `SensorTag` and `Value`, each missing key rendered as `"N/A"`. -/
def claimedLine (fields : List (String × Json)) : String :=
  "Sensor ID: " ++ renderedField fields "ExternalId"
    ++ ", Sensor Name: " ++ renderedField fields "Name"
    ++ ", Sensor Tag: " ++ renderedField fields "SensorTag"
    ++ ", Value: " ++ renderedField fields "Value"

/-- `dict.get` with the `"N/A"` default renders as the lookup-or-sentinel. -/
lemma pyStr_dictGet (fields : List (String × Json)) (key : String) :
    pyStr (dictGet fields key (Json.str "N/A")) = renderedField fields key := by
  unfold dictGet renderedField dictGet?
  cases (fields.filter (fun kv => kv.1 == key)).getLast? with
  | none => rfl
  | some kv => rfl

/-- The handler's line for a mapping element is the predicted line. -/
lemma sensorLine_obj (fields : List (String × Json)) :
    sensorLine (Json.obj fields) = .ok (claimedLine fields) := by
  show Except.ok ("Sensor ID: " ++ pyStr (dictGet fields "ExternalId" (Json.str "N/A"))
        ++ ", Sensor Name: " ++ pyStr (dictGet fields "Name" (Json.str "N/A"))
        ++ ", Sensor Tag: " ++ pyStr (dictGet fields "SensorTag" (Json.str "N/A"))
        ++ ", Value: " ++ pyStr (dictGet fields "Value" (Json.str "N/A")))
      = .ok (claimedLine fields)
  unfold claimedLine
  rw [pyStr_dictGet, pyStr_dictGet, pyStr_dictGet, pyStr_dictGet]

/-- The loop over a list of mapping elements prints the predicted line for
each element, in order. -/
lemma sensorLines_map_obj (xs : List (List (String × Json))) :
    sensorLines (xs.map Json.obj) = .ok (xs.map claimedLine) := by
  induction xs with
  | nil => rfl
  | cons a as ih =>
      simp only [List.map_cons, sensorLines, sensorLine_obj, ih]
      rfl

/-- The loop succeeds on any list whose elements are all mappings. -/
lemma sensorLines_ok_of_all_mappings (elems : List Json)
    (h : elems.all isMapping = true) :
    ∃ lines, sensorLines elems = .ok lines := by
  induction elems with
  | nil => exact ⟨[], rfl⟩
  | cons x xs ih =>
      rw [List.all_cons, Bool.and_eq_true] at h
      obtain ⟨lines, hl⟩ := ih h.2
      cases x with
      | obj fields => exact ⟨claimedLine fields :: lines, by
          simp only [sensorLines, sensorLine_obj, hl]
          rfl⟩
      | null => exact absurd h.1 (by simp [isMapping])
      | bool b => exact absurd h.1 (by simp [isMapping])
      | num n => exact absurd h.1 (by simp [isMapping])
      | str s => exact absurd h.1 (by simp [isMapping])
      | arr es => exact absurd h.1 (by simp [isMapping])

/-- Zero-pad to two digits, as `%H`, `%M`, `%S`, `%m` and `%d` do. -/
def pad2 (n : Nat) : String :=
  if n < 10 then "0" ++ natToString n else natToString n

/-- Zero-pad to four digits, as `%Y` does. -/
def pad4 (n : Nat) : String :=
  if n < 10 then "000" ++ natToString n
  else if n < 100 then "00" ++ natToString n
  else if n < 1000 then "0" ++ natToString n
  else natToString n

/-- `datetime.now().strftime('%Y-%m-%d %H:%M:%S')` applied to a clock
reading, the `YYYY-MM-DD HH:MM:SS` timestamp of the Receiver's log. -/
def strftimeYmdHMS (year month day hour minute second : Nat) : String :=
  pad4 year ++ "-" ++ pad2 month ++ "-" ++ pad2 day ++ " "
    ++ pad2 hour ++ ":" ++ pad2 minute ++ ":" ++ pad2 second

/-- `new` is exactly `"{:.1f}".format(float(old) + 0.1)`. -/
def valueStep (old new : String) : Bool :=
  match parseDecimal? old with
  | some q => new == formatOneDec (q + 1 / 10)
  | none => false

/-- The tenths string steps to its successor under the update rule. -/
lemma valueStep_tenths (k : Nat) :
    valueStep (tenthsStr k) (tenthsStr (k + 1)) = true := by
  have hq : (k : ℚ) / 10 + 1 / 10 = ((k + 1 : ℕ) : ℚ) / 10 := by
    push_cast
    ring
  unfold valueStep
  rw [parseDecimal_tenths]
  show (tenthsStr (k + 1) == formatOneDec ((k : ℚ) / 10 + 1 / 10)) = true
  rw [hq, formatOneDec_tenths]
  simp

/-- Binding a successful `Except` computation applies the continuation. -/
lemma ok_bind {ε α β : Type} (a : α) (f : α → Except ε β) :
    ((Except.ok a : Except ε α) >>= f) = f a := rfl

/-- On a truthy body the handler takes the success path of `receive_data`:
iterate the elements, print the lines, answer success. -/
lemma receive_data_truthy (data : Json) (timestamp : String)
    (htr : data.truthy = true) :
    receive_data data timestamp =
      (pyIter data >>= fun elems =>
        sensorLines elems >>= fun lines =>
          .ok (("Received data at " ++ timestamp ++ ":") :: lines,
            successResponse)) := by
  unfold receive_data
  rw [if_pos htr]

/-! ## Claims -/

/-- C1: for every POST to `/data` whose body parses as a non-empty JSON
array of mappings, the Receiver responds HTTP 200 with body
`\x7b"status": "success"\x7d`, prints exactly one timestamp line (formatted
`YYYY-MM-DD HH:MM:SS` by `strftime`) for the request, and prints one line
per array element showing the element's `ExternalId`, `Name`, `SensorTag`
and `Value`, with each missing key rendered as `"N/A"`. -/
theorem receiver_post_success
    (xs : List (List (String × Json)))
    (year month day hour minute second : Nat)
    (h : xs ≠ []) :
    receive_data (Json.arr (xs.map Json.obj))
        (strftimeYmdHMS year month day hour minute second) =
      .ok (("Received data at "
              ++ strftimeYmdHMS year month day hour minute second ++ ":")
            :: xs.map claimedLine,
          successResponse) := by
  have htr : (Json.arr (xs.map Json.obj)).truthy = true := by
    cases xs with
    | nil => exact absurd rfl h
    | cons a as => rfl
  rw [receive_data_truthy _ _ htr]
  simp only [pyIter, ok_bind, sensorLines_map_obj]

/-- Witness for `receiver_post_success`, at the spec's own example payload
`[{"ExternalId":"1","Name":"Temp","Value":"20","SensorTag":"T1"}]`. -/
theorem receiver_post_success_witness :
    ([[("ExternalId", Json.str "1"), ("Name", Json.str "Temp"),
        ("Value", Json.str "20"), ("SensorTag", Json.str "T1")]]
      : List (List (String × Json))) ≠ [] ∧
    receive_data
        (Json.arr ([[("ExternalId", Json.str "1"), ("Name", Json.str "Temp"),
          ("Value", Json.str "20"), ("SensorTag", Json.str "T1")]].map Json.obj))
        (strftimeYmdHMS 2024 1 2 3 4 5) =
      .ok (["Received data at 2024-01-02 03:04:05:",
            "Sensor ID: 1, Sensor Name: Temp, Sensor Tag: T1, Value: 20"],
          successResponse) := by
  constructor
  · simp
  · rw [receiver_post_success _ 2024 1 2 3 4 5 (by simp)]
    rfl

/-- C3: for every POST to `/data` whose parsed JSON body is empty, null, or
the empty object, the Receiver responds HTTP 400 with body exactly
`\x7b"status": "no data received"\x7d`. -/
theorem receiver_post_falsy (data : Json) (timestamp : String)
    (h : data = Json.null ∨ data = Json.obj [] ∨ data = Json.arr []) :
    receive_data data timestamp = .ok ([], noDataResponse) := by
  rcases h with rfl | rfl | rfl <;> rfl

/-- Witness for `receiver_post_falsy` at the empty object. -/
theorem receiver_post_falsy_witness :
    (Json.obj [] = Json.null ∨ Json.obj [] = Json.obj []
      ∨ Json.obj [] = Json.arr []) ∧
    receive_data (Json.obj []) "2024-01-02 03:04:05" = .ok ([], noDataResponse) :=
  ⟨Or.inr (Or.inl rfl),
   receiver_post_falsy (Json.obj []) "2024-01-02 03:04:05" (Or.inr (Or.inl rfl))⟩

/-- C4: a POST whose body is absent or not well-formed JSON (delivered to
the handler as the falsy `None`) is treated as "no data received": the
Receiver responds HTTP 400 with body `\x7b"status": "no data received"\x7d`
and applies no other error classification. -/
theorem receiver_post_no_body (timestamp : String) :
    receive_data Json.null timestamp = .ok ([], noDataResponse) ∧
    noDataResponse.status = 400 ∧
    noDataResponse.body = Json.obj [("status", Json.str "no data received")] :=
  ⟨rfl, rfl, rfl⟩

/-- C5: for every interface-valid POST payload, the handler returns a
response (raises nothing), its status is 200 exactly when the parsed body
is truthy (non-empty, non-null), and the status is always one of 200, 400. -/
theorem receiver_status_iff_truthy (data : Json) (timestamp : String)
    (h : validPayload data = true) :
    ∃ resp, responseOf (receive_data data timestamp) = some resp ∧
      (resp.status = 200 ↔ data.truthy = true) ∧
      (resp.status = 200 ∨ resp.status = 400) := by
  cases data with
  | null =>
      exact ⟨noDataResponse, rfl, by simp [Json.truthy, noDataResponse], Or.inr rfl⟩
  | bool b => exact absurd h (by simp [validPayload])
  | num n => exact absurd h (by simp [validPayload])
  | str s => exact absurd h (by simp [validPayload])
  | obj fields => exact absurd h (by simp [validPayload])
  | arr elems =>
      cases elems with
      | nil =>
          exact ⟨noDataResponse, rfl, by simp [Json.truthy, noDataResponse], Or.inr rfl⟩
      | cons e es =>
          have hall : (e :: es).all isMapping = true := by
            simpa [validPayload] using h
          obtain ⟨lines, hl⟩ := sensorLines_ok_of_all_mappings _ hall
          have htr : (Json.arr (e :: es)).truthy = true := rfl
          have hrun : receive_data (Json.arr (e :: es)) timestamp
              = .ok (("Received data at " ++ timestamp ++ ":") :: lines,
                  successResponse) := by
            rw [receive_data_truthy _ _ htr]
            simp only [pyIter, ok_bind, hl]
          refine ⟨successResponse, by rw [hrun]; rfl, ?_, Or.inl rfl⟩
          constructor
          · intro _
            exact htr
          · intro _
            rfl

/-- Witness for `receiver_status_iff_truthy` at a one-element array. -/
theorem receiver_status_iff_truthy_witness :
    validPayload (Json.arr [Json.obj []]) = true ∧
    (∃ resp, responseOf (receive_data (Json.arr [Json.obj []]) "t") = some resp ∧
      (resp.status = 200 ↔ (Json.arr [Json.obj []]).truthy = true) ∧
      (resp.status = 200 ∨ resp.status = 400)) :=
  ⟨rfl, receiver_status_iff_truthy (Json.arr [Json.obj []]) "t" rfl⟩

/-- C2 counterexample: the background thread runs the first pass of
`update_fake_sensors` immediately when it starts — before its first
`time.sleep(5)` and before `app.run` begins serving — so the state served
during the first 5-second window after startup holds the `Value` strings
`"88.1"`, `"20.1"`, `"11.1"`, not the claimed `"88.0"`, `"20.0"`, `"11.0"`. -/
theorem emulator_initial_get_counterexample :
    (stateAfter 1).map (fun l => l.map FakeSensor.Value)
        = some ["88.1", "20.1", "11.1"] ∧
    (stateAfter 1).map (fun l => l.map FakeSensor.Value)
        ≠ some ["88.0", "20.0", "11.0"] := by
  have h1 : (stateAfter 1).map (fun l => l.map FakeSensor.Value)
      = some ["88.1", "20.1", "11.1"] := by
    rw [stateAfter_eq 1]
    rfl
  refine ⟨h1, ?_⟩
  rw [h1]
  decide

/-- C2 amended: a GET to `/data.json` served during the first 5-second
window after startup (the updater has already run its immediate first pass)
returns a JSON array of exactly 3 objects whose `Value` fields equal
`"88.1"`, `"20.1"`, `"11.1"` respectively. -/
theorem emulator_initial_get_amended :
    ∃ l, stateAfter 1 = some l ∧ l.length = 3 ∧
      (data_json l).1 = Json.arr
        [Json.obj [("Text", Json.str "Fake Sensor 1"),
           ("Type", Json.str "Temperature"),
           ("Value", Json.str "88.1"), ("SensorId", Json.str "fake_sensor_1")],
         Json.obj [("Text", Json.str "Fake Sensor 2"),
           ("Type", Json.str "Humidity"),
           ("Value", Json.str "20.1"), ("SensorId", Json.str "fake_sensor_2")],
         Json.obj [("Text", Json.str "Fake Sensor 3"),
           ("Type", Json.str "Pressure"),
           ("Value", Json.str "11.1"), ("SensorId", Json.str "fake_sensor_3")]] :=
  ⟨_, stateAfter_eq 1, rfl, rfl⟩

/-- C6: each background pass takes every sensor's `Value` string, parses it
as a number, adds exactly 0.1 and reformats it with exactly one decimal
digit, so the state of the following 5-second window shows every `Value`
advanced by exactly one tenth relative to the prior window. -/
theorem emulator_update_adds_tenth (n : Nat) :
    ∃ l l', stateAfter n = some l ∧ stateAfter (n + 1) = some l' ∧
      updateFakeSensorsOnce l = some l' ∧
      l'.length = l.length ∧
      ((l.map FakeSensor.Value).zip (l'.map FakeSensor.Value)).all
          (fun p => valueStep p.1 p.2) = true ∧
      (l'.map FakeSensor.Value).all oneDecFormat = true := by
  refine ⟨_, _, stateAfter_eq n, stateAfter_eq (n + 1), ?_, rfl, ?_, ?_⟩
  · have h := stateAfter_eq (n + 1)
    rw [show stateAfter (n + 1) = (stateAfter n).bind updateFakeSensorsOnce from rfl,
      stateAfter_eq n] at h
    simpa using h
  · simp only [List.map_cons, List.map_nil, List.zip_cons_cons, List.zip_nil_right,
      List.all_cons, List.all_nil, Bool.and_true, ← Nat.add_assoc]
    rw [valueStep_tenths, valueStep_tenths, valueStep_tenths]
    rfl
  · simp only [List.map_cons, List.map_nil, List.all_cons, List.all_nil,
      Bool.and_true]
    rw [oneDecFormat_tenthsStr, oneDecFormat_tenthsStr, oneDecFormat_tenthsStr]
    rfl

/-- C7: the GET handler performs no mutation of the sensor list, so two
reads with no intervening background update observe equal JSON arrays. -/
theorem emulator_get_idempotent (state : List FakeSensor) :
    (data_json state).2 = state ∧
    (data_json ((data_json state).2)).1 = (data_json state).1 :=
  ⟨rfl, rfl⟩

/-- C8: throughout the process lifetime, every reachable state has exactly
3 sensors, their `Text`, `Type` and `SensorId` fields keep their initial
values, and the GET handler leaves the state unchanged — only `Value` is
ever mutated. -/
theorem emulator_frame_invariant (n : Nat) :
    ∃ l, stateAfter n = some l ∧ (data_json l).2 = l ∧ l.length = 3 ∧
      l.map FakeSensor.Text = sensors_data.map FakeSensor.Text ∧
      l.map FakeSensor.Type' = sensors_data.map FakeSensor.Type' ∧
      l.map FakeSensor.SensorId = sensors_data.map FakeSensor.SensorId :=
  ⟨_, stateAfter_eq n, rfl, rfl, rfl, rfl, rfl⟩

/-- C9: bodies that parse as truthy JSON but are not lists of mappings make
the handler raise an unhandled exception — a non-empty object (iterating a
dict yields string keys, which have no `.get`), a number (not iterable), and
an array containing a string all fail — so such requests yield neither the
documented 200 nor the documented 400 response. -/
theorem receiver_raises_on_bad_shapes (timestamp : String) :
    receive_data (Json.obj [("a", Json.str "b")]) timestamp
        = .error (.attributeError "str object has no attribute get") ∧
    receive_data (Json.num 5) timestamp
        = .error (.typeError "int object is not iterable") ∧
    receive_data (Json.arr [Json.str "x"]) timestamp
        = .error (.attributeError "str object has no attribute get") ∧
    responseOf (receive_data (Json.obj [("a", Json.str "b")]) timestamp) = none ∧
    responseOf (receive_data (Json.num 5) timestamp) = none ∧
    responseOf (receive_data (Json.arr [Json.str "x"]) timestamp) = none :=
  ⟨rfl, rfl, rfl, rfl, rfl, rfl⟩

/-- C10: every reachable sensor state stores `Value` strings that parse as
decimal numbers with one fractional digit; `float()` never fails on them,
one more update pass always succeeds, and so the loop never halts on the
program's own state. -/
theorem emulator_value_invariant (n : Nat) :
    ∃ l, stateAfter n = some l ∧
      (l.map FakeSensor.Value).all
          (fun v => (parseDecimal? v).isSome && oneDecFormat v) = true ∧
      (updateFakeSensorsOnce l).isSome = true ∧
      stateAfter (n + 1) ≠ none := by
  refine ⟨_, stateAfter_eq n, ?_, ?_, ?_⟩
  · simp only [List.map_cons, List.map_nil, List.all_cons, List.all_nil,
      Bool.and_true]
    rw [parseDecimal_tenths, parseDecimal_tenths, parseDecimal_tenths,
      oneDecFormat_tenthsStr, oneDecFormat_tenthsStr, oneDecFormat_tenthsStr]
    rfl
  · have h := stateAfter_eq (n + 1)
    rw [show stateAfter (n + 1) = (stateAfter n).bind updateFakeSensorsOnce from rfl,
      stateAfter_eq n] at h
    simp only [Option.some_bind] at h
    rw [h]
    rfl
  · rw [stateAfter_eq (n + 1)]
    simp
